import Mathlib

/-!
Verification of the OSCompatible thread library against its design
description.

The development shallowly embeds the two thread classes of the repository:

* `OSCompatible.thread` — the modern header-only class of
  include/OSCompatible/thread.hpp (POSIX branch): worker lambda writing a
  std::any value or the caught exception into a std::promise, getResult via
  std::future::get, join/detach/joinable over a pthread handle, move
  construction and move assignment, and the SetPolicy/SetPriority/SetAffinity
  attribute helpers used by the Properties constructor.
* `OSCompatibleThread` — the legacy class of src/OSCompatibleThread.cpp
  (Linux branch): Init builds a pthread attribute object and passes it to
  pthread_create, Join checks m_isInitialized, SetCPUcores validates the
  core vector.

OS primitives (pthread_create, pthread_join, pthread_detach,
pthread_attr_* ) are black boxes per the design; they are modelled by
explicit parameters or by a small state: a pthread handle value is a `Nat`,
the reset value pthread_t() is `Option.none` (modern class) or `0` (legacy
class), and pthread_join/pthread_detach fail with ESRCH on a handle that
names no live thread.
-/

namespace OSCompatible

/-- model of a C++ exception object: a kind (its dynamic type) and a payload,
so that "re-raises exactly the same exception" is expressible. -/
structure CppExc where
  kind : Nat
  payload : Int
deriving DecidableEq

/-- behaviour of the user callable bound at construction (the result of
std::bind(func, args...)): a non-void callable either returns a value or
throws, a void callable either completes or throws.  Values are modelled
as Int. -/
inductive Callable where
  | returnsValue : Int → Callable
  | raisesNonVoid : CppExc → Callable
  | returnsVoid : Callable
  | raisesVoid : CppExc → Callable
deriving DecidableEq

/-- contents of the std::promise<std::any> shared state once written:
either a std::any (where `value (some v)` holds v and `value none` is the
empty std::any written for void callables, thread.hpp line 392) or the
exception captured by the catch-all (line 401). -/
inductive Outcome where
  | value : Option Int → Outcome
  | exc : CppExc → Outcome
deriving DecidableEq

/-- worker lambda of thread.hpp lines 385–403: invoke the bound callable;
if the return type is void, write the empty std::any; otherwise write the
returned value; on any exception, write the captured exception object. -/
def workerThunk : Callable → Outcome
  | .returnsValue v => .value (some v)
  | .raisesNonVoid e => .exc e
  | .returnsVoid => .value none
  | .raisesVoid e => .exc e

/-- error code returned by pthread_join/pthread_detach when the handle
names no live thread. -/
def ESRCH : Nat := 3

/-- message text produced by strerror for the modelled error codes. -/
def strerror (e : Nat) : String :=
  if e = 3 then "No such process" else "Unknown error"

/-- pthread_join modelled as a black box over the set of live thread ids:
it succeeds (returns no error code) exactly on a live handle; the reset
handle pthread_t() (modelled as none) and dead handles yield ESRCH. -/
def pthread_join (live : List Nat) : Option Nat → Option Nat
  | none => some ESRCH
  | some h => if h ∈ live then none else some ESRCH

/-- pthread_detach modelled like pthread_join: succeeds exactly on a live
handle. -/
def pthread_detach (live : List Nat) : Option Nat → Option Nat
  | none => some ESRCH
  | some h => if h ∈ live then none else some ESRCH

/-- state of an OSCompatible::thread object.  m_handle none models the
reset handle pthread_t(); m_promise holds the id of the shared state owned
through the shared_ptr (none models the null shared_ptr left by a move);
m_future holds the id of the shared state the future refers to (none
models an invalid std::future, as left by a move or by get()). -/
structure thread where
  m_handle : Option Nat
  m_func : Option Callable
  m_promise : Option Nat
  m_future : Option Nat
deriving DecidableEq

/-- store of promise shared states: pairs of state id and the outcome the
worker has written there; a missing id means the worker has not written
yet. -/
abbrev Store := List (Nat × Outcome)

/-- observable behaviour of one call to getResult (thread.hpp lines
666–669, return m_future.get()): either future.get() returns the stored
std::any or rethrows the stored exception (`outcome`), or the future has
no associated shared state and a std::future_error is thrown at once
(`futureError`), or the shared state exists but is unwritten and the call
blocks awaiting the worker (`blocked`). -/
inductive GetResultStep where
  | outcome : Outcome → GetResultStep
  | futureError : GetResultStep
  | blocked : GetResultStep
deriving DecidableEq

/-- getResult: m_future.get().  On a valid future whose state is written,
get() returns the outcome and releases the shared state, leaving the
future invalid (the doc comment at thread.hpp lines 295–296: the result is
consumed and the future is no longer valid after this call).  On an
invalid future, std::future_error (no associated state) is raised
immediately without blocking. -/
def thread.getResult (t : thread) (store : Store) : GetResultStep × thread :=
  match t.m_future with
  | none => (.futureError, t)
  | some s =>
    match store.lookup s with
    | some o => (.outcome o, { t with m_future := none })
    | none => (.blocked, t)

/-- joinable (thread.hpp lines 654–663): m_handle differs from
pthread_t(). -/
def thread.joinable (t : thread) : Bool :=
  t.m_handle.isSome

/-- message built by thread::join when pthread_join fails. -/
def joinFailMsg (e : Nat) : String :=
  "Failed to join thread:" ++ strerror e

/-- join (thread.hpp lines 609–627, POSIX branch): call pthread_join on
m_handle unconditionally — there is no lifecycle check — and on a nonzero
return throw a std::runtime_error wrapping the OS error text; on success
reset m_handle to pthread_t(). -/
def thread.join (t : thread) (live : List Nat) : Except String thread :=
  match pthread_join live t.m_handle with
  | some e => .error (joinFailMsg e)
  | none => .ok { t with m_handle := none }

/-- detach (thread.hpp lines 630–651, POSIX branch): call pthread_detach
on m_handle; on failure throw; on success reset m_handle. -/
def thread.detach (t : thread) (live : List Nat) : Except String thread :=
  match pthread_detach live t.m_handle with
  | some _ => .error "Failed to detach thread"
  | none => .ok { t with m_handle := none }

/-- default constructor (thread.hpp lines 348–359): null handle, no bound
function, a fresh promise/future pair over shared state sid. -/
def thread.defaultCtor (sid : Nat) : thread :=
  { m_handle := none, m_func := none, m_promise := some sid, m_future := some sid }

/-- state of the handle right after the plain constructor (thread.hpp
lines 363–423) succeeded: live native handle tid, the bound callable, and
a fresh promise/future pair over shared state sid. -/
def spawnedThread (sid tid : Nat) (c : Callable) : thread :=
  { m_handle := some tid, m_func := some c, m_promise := some sid, m_future := some sid }

/-- plain constructor: pthread_create is a black box whose failure is
modelled by createErr; on failure the constructor throws the runtime_error
of line 418 and no handle exists; the callable never influences creation
(its body only ever runs on the new thread). -/
def thread.construct (createErr : Option Nat) (sid tid : Nat) (c : Callable) : Except String thread :=
  match createErr with
  | some e => .error ("Failed to create thread :" ++ strerror e)
  | none => .ok (spawnedThread sid tid c)

/-- store entry produced when the spawned worker has run to completion:
the worker thunk writes its outcome into shared state sid. -/
def workerWrite (sid : Nat) (c : Callable) : Store :=
  [(sid, workerThunk c)]

/-- move constructor (thread.hpp lines 571–583): the new object takes
other's handle, bound function, promise and future; other's handle is
reset to pthread_t(), its shared_ptr becomes null, its future invalid
(std::shared_ptr / std::future moved-from guarantees). -/
def thread.moveCtor (other : thread) : thread × thread :=
  ({ m_handle := other.m_handle, m_func := other.m_func,
     m_promise := other.m_promise, m_future := other.m_future },
   { m_handle := none, m_func := none, m_promise := none, m_future := none })

/-- trace of one move assignment: whether the target's previous thread was
joined (blocking) before adoption, the target's new state, and the
moved-from source's state. -/
structure MoveAssignTrace where
  joinedExistingFirst : Bool
  target : thread
  source : thread
deriving DecidableEq

/-- move assignment (thread.hpp lines 586–606, distinct objects): if the
target is joinable, join its existing thread first (blocking; a join
failure inside the noexcept operator would terminate, modelled as error);
then adopt other's handle, function, promise and future, and reset other
to the null handle with moved-from members. -/
def thread.moveAssign (tgt oth : thread) (live : List Nat) : Except String MoveAssignTrace :=
  let adopted : thread :=
    { m_handle := oth.m_handle, m_func := oth.m_func,
      m_promise := oth.m_promise, m_future := oth.m_future }
  let reset : thread :=
    { m_handle := none, m_func := none, m_promise := none, m_future := none }
  if tgt.joinable then
    match tgt.join live with
    | .error e => .error e
    | .ok _ => .ok ⟨true, adopted, reset⟩
  else
    .ok ⟨false, adopted, reset⟩

/-- count of set bits of an affinity vector (the coresCnt loop of
SetAffinity / SetCPUcores). -/
def countTrue (l : List Bool) : Nat :=
  (l.filter id).length

/-- indices flagged true: the CPU set built by the CPU_SET loop. -/
def flaggedIndices (l : List Bool) : List Nat :=
  (List.range l.length).filter (fun i => l.getD i false)

/-- what SetAffinity does towards the OS: either no affinity call at all,
or pthread_attr_setaffinity_np invoked with the given CPU set. -/
inductive AffinityAction where
  | noCall : AffinityAction
  | call : List Nat → AffinityAction
deriving DecidableEq

/-- SetAffinity (thread.hpp lines 728–782, POSIX branch): if the affinity
vector is empty, do nothing; otherwise build the CPU set and count the
flagged bits; if the count equals the vector's own size, return before the
OS call (all cores selected is already the default behaviour); otherwise
invoke the OS affinity call with the flagged indices.  Note the code never
consults the number of cores the machine actually has. -/
def SetAffinity (affinity : List Bool) : AffinityAction :=
  if affinity.isEmpty then .noCall
  else if countTrue affinity = affinity.length then .noCall
  else .call (flaggedIndices affinity)

/-- result of SetAffinity including the OS call outcome: osAccepts tells
which CPU sets pthread_attr_setaffinity_np accepts; a rejected call makes
SetAffinity throw (line 777). -/
def SetAffinityOutcome (osAccepts : List Nat → Bool) (affinity : List Bool) : Except String Unit :=
  match SetAffinity affinity with
  | .noCall => .ok ()
  | .call s =>
    if osAccepts s then .ok ()
    else .error "Failed to set thread affinity(CPU cores)"

/-- sentinel DEFAULT_PRIORITY (thread.hpp line 341). -/
def DEFAULT_PRIORITY : Int := 255

/-- sentinel DEFAULT_POLICY (thread.hpp line 342). -/
def DEFAULT_POLICY : Int := 255

/-- thread::Properties: requested priority, policy and affinity vector. -/
structure Properties where
  priority : Int
  policy : Int
  affinity : List Bool
deriving DecidableEq

/-- pthread attribute object: the fields the code sets on it.  A none
field is still at the value pthread_attr_init left. -/
structure PthreadAttr where
  schedPolicy : Option Int
  schedPriority : Option Int
  affinity : Option (List Nat)
  explicitSched : Bool
deriving DecidableEq

/-- attribute object as pthread_attr_init leaves it. -/
def pthread_attr_init : PthreadAttr :=
  { schedPolicy := none, schedPriority := none, affinity := none, explicitSched := false }

/-- SetPolicy (thread.hpp lines 710–726, POSIX branch): skip when the
policy is the DEFAULT_POLICY sentinel, otherwise store the policy in the
attribute object via pthread_attr_setschedpolicy. -/
def SetPolicy (props : Properties) (attr : PthreadAttr) : PthreadAttr :=
  if props.policy = DEFAULT_POLICY then attr
  else { attr with schedPolicy := some props.policy }

/-- SetPriority (thread.hpp lines 682–707, POSIX branch): skip when the
priority equals the sentinel — the source (line 684) literally compares
priority with DEFAULT_POLICY, which holds the same value 255 as
DEFAULT_PRIORITY — otherwise store the priority via
pthread_attr_setschedparam. -/
def SetPriority (props : Properties) (attr : PthreadAttr) : PthreadAttr :=
  if props.priority = DEFAULT_POLICY then attr
  else { attr with schedPriority := some props.priority }

/-- effect of SetAffinity on the attribute object: the OS call, when made,
stores the CPU set in the attribute object. -/
def SetAffinityAttr (props : Properties) (attr : PthreadAttr) : PthreadAttr :=
  match SetAffinity props.affinity with
  | .noCall => attr
  | .call s => { attr with affinity := some s }

/-- one attribute-application step, in the order the constructor invokes
them. -/
inductive AttrStep where
  | policy : AttrStep
  | priority : AttrStep
  | affinity : AttrStep
deriving DecidableEq

/-- trace of the Properties constructor (POSIX branch): the order of the
attribute-setting calls, the final configured attribute object, and the
attribute argument actually handed to pthread_create (none models a null
pointer). -/
structure ConstructTrace where
  steps : List AttrStep
  attr : PthreadAttr
  spawnAttrArg : Option PthreadAttr
deriving DecidableEq

/-- properties constructor, POSIX branch, success path (thread.hpp lines
519–567): pthread_attr_init (line 541); SetPolicy (547); SetPriority
(548); SetAffinity (549); pthread_attr_setinheritsched PTHREAD_EXPLICIT_SCHED
(552); then pthread_create(&m_handle, nullptr, threadFuncWrapper,
m_funcptr) (line 561) — the second argument is the null pointer, not
&m_attr, so the configured attribute object is not passed to the spawn. -/
def constructWithProperties (props : Properties) : ConstructTrace :=
  let a0 := pthread_attr_init
  let a1 := SetPolicy props a0
  let a2 := SetPriority props a1
  let a3 := SetAffinityAttr props a2
  let a4 := { a3 with explicitSched := true }
  { steps := [.policy, .priority, .affinity], attr := a4, spawnAttrArg := none }

end OSCompatible


namespace OSCompatibleThread

/-- ReturnStatus of the legacy class (include/OSCompatibleThread.h lines
60–73). -/
inductive ReturnStatus where
  | SUCCESS : ReturnStatus
  | FAILED_SET_PRIORITY : ReturnStatus
  | FAILED_SET_POLICY : ReturnStatus
  | FAILED_SET_INHERIT_SCHED : ReturnStatus
  | FAILED_SET_CPU_CORES : ReturnStatus
  | FAILED_INITIALIZE_THREAD : ReturnStatus
  | FAILED_JOIN_THREAD : ReturnStatus
  | FAILED_WAIT_TIMEOUT : ReturnStatus
  | FAILED_UNEXPECTED_ERROR : ReturnStatus
  | FAILED_FREE_RESOURCES : ReturnStatus
  | FAILED_NO_CPU_CORES_FLAGGED : ReturnStatus
  | FAILED_THREAD_ALREADY_INITIALIZED : ReturnStatus
  | FAILED_THREAD_NOT_INITIALIZED : ReturnStatus
deriving DecidableEq

/-- state of a legacy OSCompatibleThread object: m_thread (0 models the
null pthread handle), the attribute object m_attributes, and
m_isInitialized. -/
structure State where
  m_thread : Nat
  m_attributes : OSCompatible.PthreadAttr
  m_isInitialized : Bool
deriving DecidableEq

/-- default-constructed legacy object (OSCompatibleThread.cpp lines
12–20). -/
def defaultState : State :=
  { m_thread := 0, m_attributes := OSCompatible.pthread_attr_init, m_isInitialized := false }

/-- SetCPUcores (OSCompatibleThread.cpp lines 231–259): build the CPU set
from the flagged indices while counting them; if the count is zero —
which is also the case for the empty vector — fail with
FAILED_NO_CPU_CORES_FLAGGED; otherwise invoke
pthread_attr_setaffinity_np (osAffinityOk tells whether the OS accepts
it). -/
def SetCPUcores (cores : List Bool) (attr : OSCompatible.PthreadAttr) (osAffinityOk : Bool) :
    ReturnStatus × OSCompatible.PthreadAttr :=
  let cntCores := OSCompatible.countTrue cores
  if cntCores = 0 then (.FAILED_NO_CPU_CORES_FLAGGED, attr)
  else if osAffinityOk then
    (.SUCCESS, { attr with affinity := some (OSCompatible.flaggedIndices cores) })
  else (.FAILED_SET_CPU_CORES, attr)

/-- outcomes of the OS primitives consumed by Init, black boxes per the
design. -/
structure OSCaps where
  attrInitOk : Bool
  setInheritOk : Bool
  setPolicyOk : Bool
  setPriorityOk : Bool
  setAffinityOk : Bool
  createOk : Bool
deriving DecidableEq

/-- trace of one legacy Init call: the returned status, the resulting
object state, and the attribute argument passed to pthread_create (some
models &m_attributes; none means pthread_create was not reached). -/
structure InitTrace where
  status : ReturnStatus
  state : State
  spawnAttrArg : Option OSCompatible.PthreadAttr
deriving DecidableEq

/-- legacy Init, Linux branch (OSCompatibleThread.cpp lines 99–162):
reject an already-initialized object; pthread_attr_init;
pthread_attr_setinheritsched PTHREAD_EXPLICIT_SCHED; SetPolicy;
SetPriority; SetCPUcores (its specific error is collapsed to
FAILED_SET_CPU_CORES by the caller, line 143); then
pthread_create(&m_thread, &m_attributes, func, funcArgs) — the configured
attribute object IS passed to the spawn. -/
def Init (os : OSCaps) (st : State) (priority policy : Int) (cores : List Bool) (tid : Nat) :
    InitTrace :=
  if st.m_isInitialized then ⟨.FAILED_THREAD_ALREADY_INITIALIZED, st, none⟩
  else if ¬ os.attrInitOk then ⟨.FAILED_INITIALIZE_THREAD, st, none⟩
  else
    let a0 := OSCompatible.pthread_attr_init
    if ¬ os.setInheritOk then ⟨.FAILED_SET_INHERIT_SCHED, { st with m_attributes := a0 }, none⟩
    else
      let a1 := { a0 with explicitSched := true }
      if ¬ os.setPolicyOk then ⟨.FAILED_SET_POLICY, { st with m_attributes := a1 }, none⟩
      else
        let a2 := { a1 with schedPolicy := some policy }
        if ¬ os.setPriorityOk then ⟨.FAILED_SET_PRIORITY, { st with m_attributes := a2 }, none⟩
        else
          let a3 := { a2 with schedPriority := some priority }
          match SetCPUcores cores a3 os.setAffinityOk with
          | (.SUCCESS, a4) =>
            if os.createOk then
              ⟨.SUCCESS, { m_thread := tid, m_attributes := a4, m_isInitialized := true }, some a4⟩
            else
              ⟨.FAILED_INITIALIZE_THREAD, { st with m_attributes := a4 }, some a4⟩
          | (_, a4) => ⟨.FAILED_SET_CPU_CORES, { st with m_attributes := a4 }, none⟩

/-- FreeNDestroy (OSCompatibleThread.cpp lines 261–289): destroy the
attribute object (destroyOk tells whether pthread_attr_destroy succeeds),
then reset m_thread to 0 and m_isInitialized to false. -/
def FreeNDestroy (st : State) (destroyOk : Bool) : ReturnStatus × State :=
  if ¬ destroyOk then (.FAILED_FREE_RESOURCES, st)
  else (.SUCCESS, { st with m_thread := 0, m_isInitialized := false })

/-- legacy Join (OSCompatibleThread.cpp lines 166–192): a not-initialized
object — which is also what a successfully joined object has become —
fails with the specific FAILED_THREAD_NOT_INITIALIZED; then pthread_join;
on its failure FAILED_JOIN_THREAD; on success FreeNDestroy. -/
def Join (st : State) (live : List Nat) (destroyOk : Bool) : ReturnStatus × State :=
  if ¬ st.m_isInitialized then (.FAILED_THREAD_NOT_INITIALIZED, st)
  else if st.m_thread ∈ live then FreeNDestroy st destroyOk
  else (.FAILED_JOIN_THREAD, st)

end OSCompatibleThread

/-- whether an Except value is a success (models "the call did not
throw"). -/
def exceptOk {ε α : Type} : Except ε α → Bool
  | .ok _ => true
  | .error _ => false

open OSCompatible

/-- helper: every element of a replicate-true vector is flagged, so the
coresCnt loop counts the whole length. -/
theorem countTrue_replicate_true (n : Nat) :
    countTrue (List.replicate n true) = n := by
  induction n with
  | zero => rfl
  | succ k ih =>
    simp only [countTrue, List.replicate_succ, List.filter_cons] at ih ⊢
    simp only [id_eq, if_true, List.length_cons]
    omega

/-- helper: a vector with no flagged bit yields an empty CPU set. -/
theorem flaggedIndices_eq_nil (l : List Bool) (h : countTrue l = 0) :
    flaggedIndices l = [] := by
  have hf : l.filter id = [] := List.eq_nil_of_length_eq_zero h
  have hall : ∀ b ∈ l, b = false := by
    intro b hb
    cases hb2 : b with
    | false => rfl
    | true =>
      have : b ∈ l.filter id := List.mem_filter.mpr ⟨hb, by simp [hb2]⟩
      rw [hf] at this
      exact absurd this (List.not_mem_nil b)
  unfold flaggedIndices
  rw [List.filter_eq_nil_iff]
  intro i hi
  have hlt : i < l.length := List.mem_range.mp hi
  have hmem : l.getD i false ∈ l := by
    rw [List.getD_eq_getElem l false hlt]
    exact List.getElem_mem hlt
  simpa [List.getD] using hall _ hmem

/-- C1: for every callable passed at construction, getResult() returns the
exact value the callable produced wrapped as std::any — a callable
returning v yields a std::any holding v — and for a void-returning
callable getResult() returns the empty std::any written by the worker
lambda, not an error. -/
theorem getResult_returns_exact_value (v : Int) (sid tid : Nat) :
    ((spawnedThread sid tid (.returnsValue v)).getResult
        (workerWrite sid (.returnsValue v))).1
      = .outcome (.value (some v))
    ∧ ((spawnedThread sid tid .returnsVoid).getResult
        (workerWrite sid .returnsVoid)).1
      = .outcome (.value none) := by
  constructor <;>
    simp [spawnedThread, workerWrite, thread.getResult, workerThunk, List.lookup]

/-- C2: a failure raised by the callable is captured at the thunk boundary
and written into the promise as exactly the raised exception object; the
outcome of thread creation and of join never depends on what the callable
does (the same creation result and the same join result arise for every
callable), and getResult surfaces exactly the original exception, not a
wrapper. -/
theorem worker_failure_only_via_getResult (e : CppExc) (createErr : Option Nat)
    (sid tid : Nat) (c₁ c₂ : Callable) (live : List Nat) :
    workerThunk (.raisesNonVoid e) = .exc e
    ∧ workerThunk (.raisesVoid e) = .exc e
    ∧ exceptOk (thread.construct createErr sid tid c₁)
        = exceptOk (thread.construct createErr sid tid c₂)
    ∧ exceptOk ((spawnedThread sid tid c₁).join live)
        = exceptOk ((spawnedThread sid tid c₂).join live)
    ∧ ((spawnedThread sid tid (.raisesNonVoid e)).getResult
        (workerWrite sid (.raisesNonVoid e))).1
      = .outcome (.exc e) := by
  refine ⟨rfl, rfl, ?_, ?_, ?_⟩
  · cases createErr <;> rfl
  · by_cases h : tid ∈ live <;>
      simp [thread.join, pthread_join, spawnedThread, exceptOk, h]
  · simp [spawnedThread, workerWrite, thread.getResult, workerThunk, List.lookup]

/-- C7: requesting an empty affinity vector and requesting a vector with
every core individually flagged are indistinguishable in SetAffinity: in
both cases no OS affinity call is made and the call succeeds, whatever
CPU sets the OS would accept. -/
theorem affinity_empty_equiv_all_flagged (n : Nat) (osAccepts : List Nat → Bool) :
    SetAffinity [] = .noCall
    ∧ SetAffinity (List.replicate n true) = .noCall
    ∧ SetAffinityOutcome osAccepts [] = .ok ()
    ∧ SetAffinityOutcome osAccepts (List.replicate n true) = .ok () := by
  have hrep : SetAffinity (List.replicate n true) = .noCall := by
    cases n with
    | zero => rfl
    | succ k =>
      have hc := countTrue_replicate_true (k + 1)
      have hne : (List.replicate (k + 1) true).isEmpty = false := by
        simp [List.replicate_succ]
      simp [SetAffinity, hne, hc]
  exact ⟨rfl, hrep, rfl, by simp [SetAffinityOutcome, hrep]⟩

/-- C9: SetAffinity skips the OS affinity call precisely when the vector
is empty or the count of flagged bits equals the vector's own length —
the all-cores test is against the vector's size, and the machine's core
count is not an input of the function at all, so a fully flagged
non-empty vector of any length is a no-op. -/
theorem setAffinity_noop_iff_count_eq_length (l : List Bool) :
    SetAffinity l = .noCall ↔ (l = [] ∨ countTrue l = l.length) := by
  unfold SetAffinity
  by_cases h1 : l.isEmpty
  · simp_all [List.isEmpty_iff]
  · by_cases h2 : countTrue l = l.length <;>
      simp_all [List.isEmpty_iff]

/-- C3 (code defect): constructing with explicit Properties on POSIX,
at the concrete input priority 10, policy 1, empty affinity, configures
the pre-creation attribute object (policy 1, priority 10, explicit
scheduling) in the call order policy, priority, affinity — but hands
pthread_create a null attribute argument, so the configured descriptor is
never used at the spawn; the legacy Init at the matching input does pass
the configured descriptor (&m_attributes) to pthread_create. -/
theorem propertied_ctor_ignores_attr_at_spawn :
    constructWithProperties ⟨10, 1, []⟩
      = ⟨[.policy, .priority, .affinity],
         ⟨some 1, some 10, none, true⟩, none⟩
    ∧ (OSCompatibleThread.Init ⟨true, true, true, true, true, true⟩
         OSCompatibleThread.defaultState 10 1 [true] 7).spawnAttrArg
      = some ⟨some 1, some 10, some [0], true⟩ := by
  constructor
  · decide
  · decide

/-- C4 (counterexample): getResult is not idempotent.  For the concrete
thread whose worker wrote the value 7, the first getResult call returns
the std::any holding 7, but the second call hits an invalid future and
raises std::future_error instead of returning the same cached outcome. -/
theorem getResult_not_idempotent_cex :
    ((spawnedThread 0 1 (.returnsValue 7)).getResult
        (workerWrite 0 (.returnsValue 7))).1
      = .outcome (.value (some 7))
    ∧ (((spawnedThread 0 1 (.returnsValue 7)).getResult
          (workerWrite 0 (.returnsValue 7))).2.getResult
          (workerWrite 0 (.returnsValue 7))).1
      = .futureError
    ∧ (((spawnedThread 0 1 (.returnsValue 7)).getResult
          (workerWrite 0 (.returnsValue 7))).2.getResult
          (workerWrite 0 (.returnsValue 7))).1
      ≠ ((spawnedThread 0 1 (.returnsValue 7)).getResult
          (workerWrite 0 (.returnsValue 7))).1 := by
  decide

/-- C4 (amended): the result accessor may be called at most once per
handle: whenever a getResult call has returned an outcome, std::future::get
has released the shared state, and every further getResult call on the
handle raises std::future_error (no associated state) instead of returning
the cached outcome. -/
theorem getResult_consumes_shared_state (t : thread) (store : Store) (o : Outcome)
    (h : (t.getResult store).1 = .outcome o) :
    ((t.getResult store).2.getResult store).1 = .futureError := by
  cases hf : t.m_future with
  | none => simp [thread.getResult, hf] at h
  | some s =>
    cases hl : store.lookup s with
    | none => simp [thread.getResult, hf, hl] at h
    | some o2 => simp [thread.getResult, hf, hl]

/-- witness for getResult_consumes_shared_state at the worker that
produced 7. -/
theorem getResult_consumes_shared_state_witness :
    (((spawnedThread 0 1 (.returnsValue 7)).getResult
        (workerWrite 0 (.returnsValue 7))).2.getResult
        (workerWrite 0 (.returnsValue 7))).1 = .futureError :=
  getResult_consumes_shared_state
    (spawnedThread 0 1 (.returnsValue 7))
    (workerWrite 0 (.returnsValue 7))
    (.value (some 7)) (by decide)

/-- C5 (counterexample): join on an Idle, Joined or Detached handle of the
modern thread class does not produce a NotInitialized/AlreadyFinished
lifecycle error: the implementation performs no lifecycle check, calls
pthread_join on the null handle, and throws the generic runtime_error
wrapping the OS error text "No such process" — the same generic error in
all three states (after join and after detach the handle equals the
default one in every field the join path reads). -/
theorem join_misuse_generic_error_cex :
    (thread.defaultCtor 0).join [1] = .error (joinFailMsg ESRCH)
    ∧ (spawnedThread 0 1 .returnsVoid).join [1]
      = .ok { m_handle := none, m_func := some .returnsVoid,
              m_promise := some 0, m_future := some 0 }
    ∧ (thread.join { m_handle := none, m_func := some .returnsVoid,
                     m_promise := some 0, m_future := some 0 } [1])
      = .error (joinFailMsg ESRCH)
    ∧ (spawnedThread 0 1 .returnsVoid).detach [1]
      = .ok { m_handle := none, m_func := some .returnsVoid,
              m_promise := some 0, m_future := some 0 }
    ∧ joinFailMsg ESRCH = "Failed to join thread:No such process" := by
  refine ⟨rfl, ?_, rfl, ?_, rfl⟩
  · simp [spawnedThread, thread.join, pthread_join]
  · simp [spawnedThread, thread.detach, pthread_detach]

/-- C5 (amended): join on an Idle, Joined or Detached handle fails rather
than silently succeeding, but in the modern thread class the failure is
the generic runtime_error wrapping the OS join error, produced with no
lifecycle check; the specific lifecycle error exists only in the legacy
class, whose Join returns FAILED_THREAD_NOT_INITIALIZED on a
never-initialized object and again after a successful Join (double join),
since a successful Join resets m_isInitialized. -/
theorem join_misuse_behavior (t : thread) (live : List Nat)
    (h : t.m_handle = none)
    (st st3 : OSCompatibleThread.State) (live2 : List Nat) (dok : Bool)
    (h2 : st.m_isInitialized = false)
    (h3 : st3.m_isInitialized = true) (h4 : st3.m_thread ∈ live2) :
    t.join live = .error (joinFailMsg ESRCH)
    ∧ OSCompatibleThread.Join st live2 dok
      = (.FAILED_THREAD_NOT_INITIALIZED, st)
    ∧ (OSCompatibleThread.Join
        (OSCompatibleThread.Join st3 live2 true).2 live2 true).1
      = .FAILED_THREAD_NOT_INITIALIZED := by
  refine ⟨?_, ?_, ?_⟩
  · simp [thread.join, pthread_join, h]
  · simp [OSCompatibleThread.Join, h2]
  · simp [OSCompatibleThread.Join, OSCompatibleThread.FreeNDestroy, h3, h4]

/-- witness for join_misuse_behavior: the default-constructed modern
handle, a default legacy object, and an initialized legacy object on a
live thread. -/
theorem join_misuse_behavior_witness :
    (thread.defaultCtor 0).join [] = .error (joinFailMsg ESRCH)
    ∧ OSCompatibleThread.Join OSCompatibleThread.defaultState [4] true
      = (.FAILED_THREAD_NOT_INITIALIZED, OSCompatibleThread.defaultState)
    ∧ (OSCompatibleThread.Join
        (OSCompatibleThread.Join
          { m_thread := 4, m_attributes := pthread_attr_init,
            m_isInitialized := true } [4] true).2 [4] true).1
      = .FAILED_THREAD_NOT_INITIALIZED :=
  join_misuse_behavior (thread.defaultCtor 0) []
    (by decide) OSCompatibleThread.defaultState
    { m_thread := 4, m_attributes := pthread_attr_init, m_isInitialized := true }
    [4] true (by decide) (by decide) (by decide)

/-- C6: move-assigning onto a handle whose own thread is still joinable
and live first joins that thread (blocking), then adopts the source's
handle, bound function, promise and future, and resets the source to the
non-joinable default state. -/
theorem moveAssign_joins_then_adopts (tgt oth : thread) (live : List Nat)
    (hdl : Nat) (h1 : tgt.m_handle = some hdl) (h2 : hdl ∈ live) :
    thread.moveAssign tgt oth live =
      .ok ⟨true,
           { m_handle := oth.m_handle, m_func := oth.m_func,
             m_promise := oth.m_promise, m_future := oth.m_future },
           { m_handle := none, m_func := none,
             m_promise := none, m_future := none }⟩ := by
  simp [thread.moveAssign, thread.joinable, h1, thread.join, pthread_join, h2]

/-- witness for moveAssign_joins_then_adopts: a running target on live
thread 1 and a running source on live thread 3. -/
theorem moveAssign_joins_then_adopts_witness :
    thread.moveAssign
      { m_handle := some 1, m_func := none, m_promise := some 0, m_future := some 0 }
      { m_handle := some 3, m_func := some (.returnsValue 5),
        m_promise := some 2, m_future := some 2 } [1, 3] =
      .ok ⟨true,
           { m_handle := some 3, m_func := some (.returnsValue 5),
             m_promise := some 2, m_future := some 2 },
           { m_handle := none, m_func := none,
             m_promise := none, m_future := none }⟩ :=
  moveAssign_joins_then_adopts
    { m_handle := some 1, m_func := none, m_promise := some 0, m_future := some 0 }
    { m_handle := some 3, m_func := some (.returnsValue 5),
      m_promise := some 2, m_future := some 2 } [1, 3] 1 rfl (by decide)

/-- C8 (counterexample): at the concrete empty vector, the legacy
SetCPUcores fails with FAILED_NO_CPU_CORES_FLAGGED — the empty set is not
a distinguished success meaning no restriction; and in the modern
SetAffinity a non-empty vector with no set bits is not rejected with any
NoCoresFlagged error: the OS affinity call is issued with the empty CPU
set. -/
theorem affinity_validation_cex :
    (OSCompatibleThread.SetCPUcores [] pthread_attr_init true).1
      = .FAILED_NO_CPU_CORES_FLAGGED
    ∧ SetAffinity [false] = .call [] := by
  decide

/-- C8 (amended): the legacy SetCPUcores fails with
FAILED_NO_CPU_CORES_FLAGGED whenever the core vector has no set bits,
including the empty vector, so the empty set is not distinguished there;
the modern SetAffinity treats the empty vector as no restriction (no OS
call) and succeeds, while a non-empty vector with no set bits yields no
NoCoresFlagged error: the OS affinity call is issued with an empty CPU
set. -/
theorem affinity_no_bits_validation
    (cores : List Bool) (attr : PthreadAttr) (osOk : Bool)
    (h : countTrue cores = 0)
    (l : List Bool) (h1 : l ≠ []) (h2 : countTrue l = 0) :
    (OSCompatibleThread.SetCPUcores cores attr osOk).1
      = .FAILED_NO_CPU_CORES_FLAGGED
    ∧ SetAffinity [] = .noCall
    ∧ SetAffinity l = .call [] := by
  refine ⟨?_, rfl, ?_⟩
  · simp [OSCompatibleThread.SetCPUcores, h]
  · have hlen : l.length ≠ 0 := by
      intro h0
      exact h1 (List.eq_nil_of_length_eq_zero h0)
    have hem : l.isEmpty = false := by
      cases l with
      | nil => exact absurd rfl h1
      | cons a as => rfl
    have hfi := flaggedIndices_eq_nil l h2
    simp [SetAffinity, hem, h2, hfi]
    omega

/-- witness for affinity_no_bits_validation at the vectors [false] and
[]. -/
theorem affinity_no_bits_validation_witness :
    (OSCompatibleThread.SetCPUcores [] pthread_attr_init true).1
      = .FAILED_NO_CPU_CORES_FLAGGED
    ∧ SetAffinity [] = .noCall
    ∧ SetAffinity [false, false] = .call [] :=
  affinity_no_bits_validation [] pthread_attr_init true (by decide)
    [false, false] (by decide) (by decide)

/-- C10: whichever way a thread handle is moved from, its promise and
future transfer to the target: the moved-from handle's future is invalid,
so getResult on it raises std::future_error immediately (it does not
block), while getResult on the move target retrieves the worker's written
outcome. -/
theorem moved_from_handle_future_invalid
    (t : thread) (store : Store) (sid : Nat) (o : Outcome)
    (hf : t.m_future = some sid) (hs : store.lookup sid = some o) :
    ((thread.moveCtor t).2.getResult store).1 = .futureError
    ∧ (thread.moveCtor t).1.m_future = t.m_future
    ∧ (thread.moveCtor t).1.m_promise = t.m_promise
    ∧ ((thread.moveCtor t).1.getResult store).1 = .outcome o
    ∧ (∀ tgt live r, thread.moveAssign tgt t live = .ok r →
        ((r.source.getResult store).1 = .futureError
         ∧ (r.target.getResult store).1 = .outcome o)) := by
  refine ⟨rfl, rfl, rfl, ?_, ?_⟩
  · simp [thread.moveCtor, thread.getResult, hf, hs]
  · intro tgt live r hr
    unfold thread.moveAssign at hr
    by_cases hj : tgt.joinable
    · simp only [hj, if_true] at hr
      cases hjoin : tgt.join live with
      | error e => rw [hjoin] at hr; exact absurd hr (by simp)
      | ok t2 =>
        rw [hjoin] at hr
        cases hr
        constructor
        · rfl
        · simp [thread.getResult, hf, hs]
    · simp only [hj, if_false] at hr
      cases hr
      constructor
      · rfl
      · simp [thread.getResult, hf, hs]

/-- witness for moved_from_handle_future_invalid: a spawned thread whose
worker wrote the value 9, moved into a fresh target. -/
theorem moved_from_handle_future_invalid_witness :
    ((thread.moveCtor (spawnedThread 0 1 (.returnsValue 9))).2.getResult
        (workerWrite 0 (.returnsValue 9))).1 = .futureError
    ∧ ((thread.moveCtor (spawnedThread 0 1 (.returnsValue 9))).1.getResult
        (workerWrite 0 (.returnsValue 9))).1
      = .outcome (.value (some 9)) :=
  ⟨(moved_from_handle_future_invalid (spawnedThread 0 1 (.returnsValue 9))
      (workerWrite 0 (.returnsValue 9)) 0 (.value (some 9)) rfl (by decide)).1,
   (moved_from_handle_future_invalid (spawnedThread 0 1 (.returnsValue 9))
      (workerWrite 0 (.returnsValue 9)) 0 (.value (some 9)) rfl (by decide)).2.2.2.1⟩
